import Mathlib

/-!
Verification of the `cad-engine` STEP→STL conversion service.

This file shallowly embeds the Python modules `validators.py`, `config.py`
and `services.py` of the repository.  Pure logic (extension parsing, size
checks, signature search, range validation) is translated directly; calls
into the operating system and the OCC geometry kernel are modelled by
explicit environment records describing the outcome of each external call
(whether a file exists, what status the kernel returned, whether a call
raised).  Python exceptions become `Except` values; the distinction between
the service's own typed errors and raw foreign exceptions is kept by the
`PyOutcome` type so that `try/except` chains can be translated faithfully.
-/

namespace CadEngine

/-- The typed errors of `exceptions.py`, each carrying its message string. -/
inductive CADError where
  | fileSizeExceeded (msg : String)
  | invalidFileType (msg : String)
  | stepReadError (msg : String)
  | meshingError (msg : String)
  | stlWriteError (msg : String)
  | conversionError (msg : String)
  deriving DecidableEq, Repr

/-- `str(e)` of a typed error: its message. -/
def CADError.message : CADError → String
  | .fileSizeExceeded m => m
  | .invalidFileType m => m
  | .stepReadError m => m
  | .meshingError m => m
  | .stlWriteError m => m
  | .conversionError m => m

/-- An exception travelling through a Python `try` block: either one of the
engine's own typed errors, or a raw foreign exception with message `msg`. -/
inductive PyExn where
  | cad (e : CADError)
  | raw (msg : String)
  deriving DecidableEq, Repr

/-- Result of a Python block that may raise. -/
abbrev PyOutcome (α : Type) := Except PyExn α

/-- Lift the outcome of an external call (which raises only raw exceptions)
into a `try` block. -/
def liftRaw {α : Type} : Except String α → PyOutcome α
  | .ok a => .ok a
  | .error m => .error (.raw m)

/-! ## validators.py -/

/-- Byte strings are modelled as lists of byte values. -/
abbrev Bytes := List Nat

/-- ASCII bytes of a string literal (all signature literals are ASCII). -/
def strBytes (s : String) : Bytes := s.data.map Char.toNat

/-- Python's `needle in hay` on byte strings: `needle` occurs contiguously
somewhere in `hay`. -/
def bytesContains (needle hay : Bytes) : Bool :=
  (List.range (hay.length + 1)).any (fun i => needle.isPrefixOf (hay.drop i))

/-- `STEP_MAGIC_NUMBERS` from `validators.py`. -/
def STEP_MAGIC_NUMBERS : List Bytes :=
  [strBytes "ISO-10303-21;", strBytes "ISO-10303-28;"]

/-- `ALLOWED_EXTENSIONS` from `validators.py`. -/
def ALLOWED_EXTENSIONS : List String := [".step", ".stp", ".iges", ".igs"]

/-- A file's first 512 bytes contain one of the STEP signatures. -/
def hasStepSignature (content : Bytes) : Bool :=
  STEP_MAGIC_NUMBERS.any (fun magic_num => bytesContains magic_num (content.take 512))

/-- Split a character list at every occurrence of the separator. -/
def splitChars (sep : Char) : List Char → List (List Char)
  | [] => [[]]
  | c :: cs =>
    let rest := splitChars sep cs
    if c = sep then [] :: rest
    else
      match rest with
      | [] => [[c]]
      | r :: rs => (c :: r) :: rs

/-- Split a POSIX path on `/`, dropping empty and `.` components, as
`pathlib.PurePosixPath` normalisation does. -/
def pathComponents (filename : String) : List (List Char) :=
  (splitChars '/' filename.data).filter (fun s => s ≠ [] ∧ s ≠ ['.'])

/-- `Path(filename).name`: the last component of the path, as characters. -/
def pathName (filename : String) : List Char :=
  (pathComponents filename).getLast? |>.getD []

/-- Index of the last `.` in a list of characters, if any. -/
def lastDotIdx (cs : List Char) : Option Nat :=
  (List.range cs.length).reverse.find? (fun i => cs.get? i = some '.')

/-- `Path(filename).suffix`: the final dot-segment of the name, including
the dot, provided the dot is neither the first nor the last character. -/
def pathSuffix (filename : String) : String :=
  let name := pathName filename
  match lastDotIdx name with
  | none => ""
  | some i => if 0 < i ∧ i < name.length - 1 then ⟨name.drop i⟩ else ""

/-- `str.lower()` on ASCII text. -/
def lowerStr (s : String) : String := ⟨s.data.map Char.toLower⟩

/-- State of the uploaded file as the validator observes it: its bytes on
disk and whether opening/reading it for the signature check raises an
`IOError` (with the given message). -/
structure FileSys where
  content : Bytes
  ioError : Option String
  deriving Repr

/-- The `FileValidator` object: its configured size cap. -/
structure FileValidator where
  max_file_size_bytes : Nat
  deriving Repr

/-- Render `bytes / (1024*1024)` with two decimal places, as Python's
`f"{x:.2f}"` does (ties to even; exact because `bytes/2^20` is an exact
binary float for any realistic size). -/
def fmt2MB (bytes : Nat) : String :=
  let q := bytes * 100
  let d := 1024 * 1024
  let k := q / d
  let r := q % d
  let c := if 2 * r < d then k
           else if d < 2 * r then k + 1
           else if k % 2 = 0 then k else k + 1
  let ip := c / 100
  let fp := c % 100
  let ips := toString ip
  let fps := toString fp
  ips ++ "." ++ (if fp < 10 then "0" else "") ++ fps

/-- `FileValidator.validate_file_size`. -/
def FileValidator.validate_file_size (v : FileValidator) (fs : FileSys) :
    Except CADError Unit :=
  let file_size := fs.content.length
  if v.max_file_size_bytes < file_size then
    let actual := fmt2MB file_size
    let limit := fmt2MB v.max_file_size_bytes
    .error (.fileSizeExceeded
      ("File size " ++ actual ++ "MB exceeds maximum allowed size " ++ limit ++ "MB"))
  else
    .ok ()

/-- `FileValidator.validate_file_extension`. -/
def FileValidator.validate_file_extension (filename : String) :
    Except CADError String :=
  let file_ext := lowerStr (pathSuffix filename)
  if file_ext ∈ ALLOWED_EXTENSIONS then
    .ok file_ext
  else
    .error (.invalidFileType
      ("Invalid file type: " ++ file_ext ++ ". Supported: " ++
        String.intercalate ", " ALLOWED_EXTENSIONS))

/-- `FileValidator.validate_magic_number`: read the first 512 bytes and
look for either STEP signature; an `IOError` while reading is re-raised
as `InvalidFileTypeError`. -/
def FileValidator.validate_magic_number (fs : FileSys) :
    Except CADError Unit :=
  match fs.ioError with
  | some e => .error (.invalidFileType ("Cannot read file for validation: " ++ e))
  | none =>
    let header := fs.content.take 512
    let is_valid := STEP_MAGIC_NUMBERS.any (fun magic_num => bytesContains magic_num header)
    if is_valid then .ok ()
    else .error (.invalidFileType
      ("File content does not match STEP format. " ++
       "Please upload a valid STEP/IGES file."))

/-- `FileValidator.validate_file`: extension, then size, then signature;
the first failing check raises and the rest are not reached. -/
def FileValidator.validate_file (v : FileValidator) (fs : FileSys)
    (filename : String) : Except CADError (String × Nat) :=
  match FileValidator.validate_file_extension filename with
  | .error e => .error e
  | .ok file_ext =>
    match v.validate_file_size fs with
    | .error e => .error e
    | .ok _ =>
      match FileValidator.validate_magic_number fs with
      | .error e => .error e
      | .ok _ => .ok (file_ext, fs.content.length)

/-! ## config.py -/

/-- The environment variables as `AppConfig.from_env` parses them: numeric
settings already passed through `int(...)`/`float(...)`, strings as read.
The float-valued deflection settings are modelled by their exact rational
values. -/
structure EnvSettings where
  port : Int
  host : String
  node_env : String
  cors_origins_str : String
  max_file_size_mb : Int
  rate_limit_per_minute : Int
  linear_deflection : ℚ
  angular_deflection : ℚ
  temp_dir : String
  log_level : String
  deriving Repr

/-- `str.upper()` on ASCII text. -/
def upperStr (s : String) : String := ⟨s.data.map Char.toUpper⟩

/-- The `AppConfig` dataclass. -/
structure AppConfig where
  port : Int
  host : String
  environment : String
  cors_origins : List String
  max_file_size_bytes : Int
  rate_limit_per_minute : Int
  linear_deflection : ℚ
  angular_deflection : ℚ
  temp_dir : String
  log_level : String
  deriving Repr

/-- `AppConfig.from_env`: build the configuration, rejecting deflection
settings outside their ranges with a `ValueError` (modelled as `.error`). -/
def AppConfig.from_env (env : EnvSettings) : Except String AppConfig :=
  let cors_origins := ((env.cors_origins_str.split (fun c => c = ',')).map String.trim)
  let max_file_size_bytes := env.max_file_size_mb * (1024 * 1024)
  if ¬ ((1 / 1000 : ℚ) ≤ env.linear_deflection ∧ env.linear_deflection ≤ 1) then
    .error ("LINEAR_DEFLECTION must be between 0.001 and 1.0, got " ++
      toString env.linear_deflection)
  else if ¬ ((1 / 10 : ℚ) ≤ env.angular_deflection ∧ env.angular_deflection ≤ 1) then
    .error ("ANGULAR_DEFLECTION must be between 0.1 and 1.0, got " ++
      toString env.angular_deflection)
  else
    .ok { port := env.port
          host := env.host
          environment := env.node_env
          cors_origins := cors_origins
          max_file_size_bytes := max_file_size_bytes
          rate_limit_per_minute := env.rate_limit_per_minute
          linear_deflection := env.linear_deflection
          angular_deflection := env.angular_deflection
          temp_dir := env.temp_dir
          log_level := upperStr env.log_level }

/-! ## services.py -/

/-- Return statuses of the kernel reader (`IFSelect_ReturnStatus`);
`retDone` is `IFSelect_RetDone`. -/
inductive IFSelectStatus where
  | retVoid
  | retDone
  | retError
  | retFail
  | retStop
  deriving DecidableEq, Repr

/-- Numeric code of a reader status, as logged by the service. -/
def IFSelectStatus.code : IFSelectStatus → Nat
  | .retVoid => 0
  | .retDone => 1
  | .retError => 2
  | .retFail => 3
  | .retStop => 4

/-- The kernel's shape handle: an opaque identity plus its `IsNull` flag. -/
structure TopoDS_Shape where
  id : Nat
  isNull : Bool
  deriving DecidableEq, Repr

/-- Outcomes of the external calls made by `StepReader.read`, in program
order: file-existence probe, `os.path.getsize`, `reader.ReadFile`,
`reader.TransferRoots`, `reader.OneShape` (each kernel call may raise a
raw exception carrying a message). -/
structure ReadEnv where
  fileExists : Bool
  getSize : Except String Nat
  readFile : Except String IFSelectStatus
  transferRoots : Except String Nat
  oneShape : Except String TopoDS_Shape
  deriving Repr

/-- `StepReader` holds no state. -/
structure StepReader where
  deriving DecidableEq, Repr

/-- Body of the `try` block of `StepReader.read` (services.py lines 44-76). -/
def StepReader.readBody (env : ReadEnv) (step_file_path : String) :
    PyOutcome TopoDS_Shape :=
  if env.fileExists = false then
    .error (.cad (.stepReadError ("STEP file does not exist: " ++ step_file_path)))
  else
    match liftRaw env.getSize with
    | .error e => .error e
    | .ok _file_size =>
      match liftRaw env.readFile with
      | .error e => .error e
      | .ok status =>
        if status ≠ IFSelectStatus.retDone then
          .error (.cad (.stepReadError
            ("Failed to read STEP file, status code: " ++ toString status.code)))
        else
          match liftRaw env.transferRoots with
          | .error e => .error e
          | .ok _nb_roots =>
            match liftRaw env.oneShape with
            | .error e => .error e
            | .ok shape =>
              if shape.isNull then
                .error (.cad (.stepReadError "STEP file contains no valid shapes"))
              else
                .ok shape

/-- `StepReader.read`: run the body; re-raise `StepReadError` as is and
wrap any other exception into a `StepReadError`. -/
def StepReader.read (env : ReadEnv) (step_file_path : String) :
    Except CADError TopoDS_Shape :=
  match StepReader.readBody env step_file_path with
  | .ok shape => .ok shape
  | .error (.cad (.stepReadError m)) => .error (.stepReadError m)
  | .error (.cad e) =>
      .error (.stepReadError ("Error reading STEP file: " ++ CADError.message e))
  | .error (.raw m) => .error (.stepReadError ("Error reading STEP file: " ++ m))

/-- The disjunction of conditions under which `read` fails: missing input
file, status other than done, null shape, or any external call raising. -/
def ReadEnv.failCondition (env : ReadEnv) : Prop :=
  env.fileExists = false
  ∨ (∃ m, env.getSize = Except.error m)
  ∨ (∃ m, env.readFile = Except.error m)
  ∨ (∃ st, env.readFile = Except.ok st ∧ st ≠ IFSelectStatus.retDone)
  ∨ (∃ m, env.transferRoots = Except.error m)
  ∨ (∃ m, env.oneShape = Except.error m)
  ∨ (∃ s, env.oneShape = Except.ok s ∧ s.isNull = true)

/-- The `ShapeMesher` object: its quality settings. -/
structure ShapeMesher where
  linear_deflection : ℚ
  angular_deflection : ℚ
  deriving DecidableEq, Repr

/-- Outcomes of the external calls made by `ShapeMesher.mesh`:
`BRepMesh_IncrementalMesh(...)` construction, `mesh.Perform()`, and the
value of `mesh.IsDone()`. -/
structure MeshEnv where
  ctor : Except String Unit
  perform : Except String Unit
  isDone : Bool
  deriving Repr

/-- The argument tuple passed to `BRepMesh_IncrementalMesh`. -/
structure BRepMeshArgs where
  shape : TopoDS_Shape
  linear_deflection : ℚ
  isRelative : Bool
  angular_deflection : ℚ
  inParallel : Bool
  deriving DecidableEq, Repr

/-- The exact arguments with which `mesh` invokes the kernel mesher
(services.py lines 124-130): `(shape, linear_deflection, False, angular_deflection, True)`. -/
def ShapeMesher.kernelArgs (m : ShapeMesher) (shape : TopoDS_Shape) : BRepMeshArgs :=
  { shape := shape
    linear_deflection := m.linear_deflection
    isRelative := false
    angular_deflection := m.angular_deflection
    inParallel := true }

/-- Body of the `try` block of `ShapeMesher.mesh` (services.py lines 120-138). -/
def ShapeMesher.meshBody (env : MeshEnv) (shape : TopoDS_Shape) :
    PyOutcome TopoDS_Shape :=
  match liftRaw env.ctor with
  | .error e => .error e
  | .ok _ =>
    match liftRaw env.perform with
    | .error e => .error e
    | .ok _ =>
      if env.isDone = false then
        .error (.cad (.meshingError "Meshing operation failed"))
      else
        .ok shape

/-- `ShapeMesher.mesh`: run the body; re-raise `MeshingError` as is and
wrap any other exception into a `MeshingError`. -/
def ShapeMesher.mesh (_m : ShapeMesher) (env : MeshEnv) (shape : TopoDS_Shape) :
    Except CADError TopoDS_Shape :=
  match ShapeMesher.meshBody env shape with
  | .ok s => .ok s
  | .error (.cad (.meshingError m)) => .error (.meshingError m)
  | .error (.cad e) =>
      .error (.meshingError ("Error meshing shape: " ++ CADError.message e))
  | .error (.raw m) => .error (.meshingError ("Error meshing shape: " ++ m))

/-- The `StlWriter` object: its ASCII-mode flag. -/
structure StlWriter where
  ascii_mode : Bool
  deriving DecidableEq, Repr

/-- Outcomes of the external calls made by `StlWriter.write`: the kernel
write call `stl_writer.Write(shape, stl_file_path)`, and the state of the
output location afterward (`os.path.exists` / `os.path.getsize`). -/
structure WriteEnv where
  writeCall : Except String Unit
  fileExistsAfter : Bool
  fileSizeAfter : Nat
  deriving Repr

/-- Body of the `try` block of `StlWriter.write` (services.py lines 178-195). -/
def StlWriter.writeBody (env : WriteEnv) (stl_file_path : String) :
    PyOutcome String :=
  match liftRaw env.writeCall with
  | .error e => .error e
  | .ok _ =>
    if env.fileExistsAfter = false then
      .error (.cad (.stlWriteError "STL file was not created"))
    else
      let _file_size := env.fileSizeAfter
      .ok stl_file_path

/-- `StlWriter.write`: run the body; re-raise `StlWriteError` as is and
wrap any other exception into a `StlWriteError`. -/
def StlWriter.write (_w : StlWriter) (env : WriteEnv) (_shape : TopoDS_Shape)
    (stl_file_path : String) : Except CADError String :=
  match StlWriter.writeBody env stl_file_path with
  | .ok p => .ok p
  | .error (.cad (.stlWriteError m)) => .error (.stlWriteError m)
  | .error (.cad e) =>
      .error (.stlWriteError ("Error writing STL file: " ++ CADError.message e))
  | .error (.raw m) => .error (.stlWriteError ("Error writing STL file: " ++ m))

/-- The `ConversionService` object and its injected dependencies. -/
structure ConversionService where
  step_reader : StepReader
  shape_mesher : ShapeMesher
  stl_writer : StlWriter
  deriving Repr

/-- The external-call outcomes for one run of the whole pipeline. -/
structure ConvertEnv where
  readEnv : ReadEnv
  meshEnv : MeshEnv
  writeEnv : WriteEnv
  deriving Repr

/-- Tags recording which pipeline stages were entered during a run. -/
inductive StageTag where
  | readStage
  | meshStage
  | writeStage
  deriving DecidableEq, Repr

/-- The `except`-clause of `ConversionService.convert`: the three
stage-specific errors are wrapped as `Conversion failed: ...`, anything
else as `Unexpected error during conversion: ...`. -/
def ConversionService.wrapError (e : CADError) : CADError :=
  match e with
  | .stepReadError m => .conversionError ("Conversion failed: " ++ m)
  | .meshingError m => .conversionError ("Conversion failed: " ++ m)
  | .stlWriteError m => .conversionError ("Conversion failed: " ++ m)
  | e => .conversionError ("Unexpected error during conversion: " ++ CADError.message e)

/-- `ConversionService.convert`, instrumented with the list of stages that
were actually entered: read, then mesh, then write, each stage starting
only after the previous one returned successfully; the first stage error
aborts the run and is wrapped by the `except` clause. -/
def ConversionService.convertT (svc : ConversionService) (env : ConvertEnv)
    (step_file_path stl_file_path : String) :
    Except CADError String × List StageTag :=
  match StepReader.read env.readEnv step_file_path with
  | .error e => (.error (ConversionService.wrapError e), [.readStage])
  | .ok shape =>
    match svc.shape_mesher.mesh env.meshEnv shape with
    | .error e => (.error (ConversionService.wrapError e), [.readStage, .meshStage])
    | .ok meshed_shape =>
      match svc.stl_writer.write env.writeEnv meshed_shape stl_file_path with
      | .error e =>
          (.error (ConversionService.wrapError e), [.readStage, .meshStage, .writeStage])
      | .ok output_path => (.ok output_path, [.readStage, .meshStage, .writeStage])

/-- `ConversionService.convert`: the pipeline's result. -/
def ConversionService.convert (svc : ConversionService) (env : ConvertEnv)
    (step_file_path stl_file_path : String) : Except CADError String :=
  (ConversionService.convertT svc env step_file_path stl_file_path).1

/-! ## Characterization lemmas for the three pipeline stages -/

/-- Success characterization of `StepReader.read`: it succeeds exactly when
the file exists, every kernel call returns, the status is done, and the
shape is non-null; the returned shape is the kernel's shape. -/
theorem StepReader.read_ok_iff (env : ReadEnv) (p : String) (s : TopoDS_Shape) :
    StepReader.read env p = Except.ok s ↔
      (env.fileExists = true ∧ (∃ n, env.getSize = Except.ok n)
       ∧ env.readFile = Except.ok IFSelectStatus.retDone
       ∧ (∃ n, env.transferRoots = Except.ok n)
       ∧ env.oneShape = Except.ok s ∧ s.isNull = false) := by
  obtain ⟨fe, gs, rf, tr, os⟩ := env
  rcases gs with m1 | n1 <;> rcases rf with m2 | st <;> rcases tr with m3 | n3 <;>
    rcases os with m4 | ⟨sid, sn⟩ <;> cases fe <;> (try cases st) <;> (try cases sn) <;>
    simp_all [StepReader.read, StepReader.readBody, liftRaw] <;>
    (rintro rfl; rfl)

/-- `read` only ever raises `StepReadError`. -/
theorem StepReader.read_error_kind (env : ReadEnv) (p : String) (e : CADError)
    (h : StepReader.read env p = Except.error e) :
    ∃ m, e = CADError.stepReadError m := by
  unfold StepReader.read at h
  split at h <;> simp_all <;> exact ⟨_, h.symm⟩

/-- `read` fails exactly under `failCondition`. -/
theorem StepReader.read_error_iff (env : ReadEnv) (p : String) :
    (∃ e, StepReader.read env p = Except.error e) ↔ env.failCondition := by
  obtain ⟨fe, gs, rf, tr, os⟩ := env
  rcases gs with m1 | n1 <;> rcases rf with m2 | st <;> rcases tr with m3 | n3 <;>
    rcases os with m4 | ⟨sid, sn⟩ <;> cases fe <;> (try cases st) <;> (try cases sn) <;>
    simp_all [StepReader.read, StepReader.readBody, liftRaw, ReadEnv.failCondition]

/-- Success characterization of `mesh`: it succeeds exactly when both kernel
calls return and the completion flag is set, and then it returns its input
shape unchanged. -/
theorem ShapeMesher.mesh_ok_iff (m : ShapeMesher) (env : MeshEnv) (shape s : TopoDS_Shape) :
    ShapeMesher.mesh m env shape = Except.ok s ↔
      (s = shape ∧ env.ctor = Except.ok () ∧ env.perform = Except.ok ()
       ∧ env.isDone = true) := by
  obtain ⟨c, pf, d⟩ := env
  rcases c with m1 | u1 <;> rcases pf with m2 | u2 <;> cases d <;>
    simp_all [ShapeMesher.mesh, ShapeMesher.meshBody, liftRaw, eq_comm]

/-- `mesh` only ever raises `MeshingError`. -/
theorem ShapeMesher.mesh_error_kind (m : ShapeMesher) (env : MeshEnv)
    (shape : TopoDS_Shape) (e : CADError)
    (h : ShapeMesher.mesh m env shape = Except.error e) :
    ∃ msg, e = CADError.meshingError msg := by
  unfold ShapeMesher.mesh at h
  split at h <;> simp_all <;> exact ⟨_, h.symm⟩

/-- `mesh` fails exactly when a kernel call raises or `IsDone` is false. -/
theorem ShapeMesher.mesh_error_iff (m : ShapeMesher) (env : MeshEnv) (shape : TopoDS_Shape) :
    (∃ e, ShapeMesher.mesh m env shape = Except.error e) ↔
      ((∃ em, env.ctor = Except.error em) ∨ (∃ em, env.perform = Except.error em)
       ∨ env.isDone = false) := by
  obtain ⟨c, pf, d⟩ := env
  rcases c with m1 | u1 <;> rcases pf with m2 | u2 <;> cases d <;>
    simp_all [ShapeMesher.mesh, ShapeMesher.meshBody, liftRaw]

/-- Success characterization of `write`: it succeeds exactly when the kernel
write call returns and the output file exists afterward, and then it
returns the output path. -/
theorem StlWriter.write_ok_iff (w : StlWriter) (env : WriteEnv) (shape : TopoDS_Shape)
    (path r : String) :
    StlWriter.write w env shape path = Except.ok r ↔
      (r = path ∧ env.writeCall = Except.ok () ∧ env.fileExistsAfter = true) := by
  obtain ⟨wc, fe, sz⟩ := env
  rcases wc with m1 | u1 <;> cases fe <;>
    simp_all [StlWriter.write, StlWriter.writeBody, liftRaw, eq_comm]

/-- `write` only ever raises `StlWriteError`. -/
theorem StlWriter.write_error_kind (w : StlWriter) (env : WriteEnv) (shape : TopoDS_Shape)
    (path : String) (e : CADError)
    (h : StlWriter.write w env shape path = Except.error e) :
    ∃ msg, e = CADError.stlWriteError msg := by
  unfold StlWriter.write at h
  split at h <;> simp_all <;> exact ⟨_, h.symm⟩

/-- `write` fails exactly when the kernel write call raises or the output
file does not exist afterward. -/
theorem StlWriter.write_error_iff (w : StlWriter) (env : WriteEnv) (shape : TopoDS_Shape)
    (path : String) :
    (∃ e, StlWriter.write w env shape path = Except.error e) ↔
      ((∃ em, env.writeCall = Except.error em) ∨ env.fileExistsAfter = false) := by
  obtain ⟨wc, fe, sz⟩ := env
  rcases wc with m1 | u1 <;> cases fe <;>
    simp_all [StlWriter.write, StlWriter.writeBody, liftRaw]

/-! ## Theorems about the validators -/

/-- C3: for every filename whose lowercase suffix is not in
`{.step, .stp, .iges, .igs}`, `validate_file` raises `InvalidFileTypeError`
regardless of the file's content or size; since the extension check runs
first, the error message is independent of the file system state, so
neither the file's size nor its first 512 bytes are examined. -/
theorem claim_c3_extension_gate (filename : String)
    (h : lowerStr (pathSuffix filename) ∉ ALLOWED_EXTENSIONS) :
    ∃ msg, ∀ (v : FileValidator) (fs : FileSys),
      FileValidator.validate_file v fs filename =
        Except.error (CADError.invalidFileType msg) := by
  refine ⟨"Invalid file type: " ++ lowerStr (pathSuffix filename) ++ ". Supported: " ++
      String.intercalate ", " ALLOWED_EXTENSIONS, fun v fs => ?_⟩
  simp only [FileValidator.validate_file, FileValidator.validate_file_extension]
  rw [if_neg h]

/-- Witness for C3 at the concrete filename `evil.exe`. -/
theorem claim_c3_extension_gate_witness :
    ∃ msg, ∀ (v : FileValidator) (fs : FileSys),
      FileValidator.validate_file v fs "evil.exe" =
        Except.error (CADError.invalidFileType msg) :=
  claim_c3_extension_gate "evil.exe" (by decide)

/-- C4: for a file within the size cap and with an allowed extension, if
the first 512 bytes contain neither STEP signature then `validate_file`
raises `InvalidFileTypeError`, and if either signature is present it
returns the pair (lowercase extension, file size in bytes). -/
theorem claim_c4_signature_check (v : FileValidator) (fs : FileSys) (filename : String)
    (hio : fs.ioError = none)
    (hsize : fs.content.length ≤ v.max_file_size_bytes)
    (hext : lowerStr (pathSuffix filename) ∈ ALLOWED_EXTENSIONS) :
    (hasStepSignature fs.content = false →
      FileValidator.validate_file v fs filename =
        Except.error (CADError.invalidFileType
          ("File content does not match STEP format. " ++
           "Please upload a valid STEP/IGES file.")))
    ∧ (hasStepSignature fs.content = true →
      FileValidator.validate_file v fs filename =
        Except.ok (lowerStr (pathSuffix filename), fs.content.length)) := by
  constructor <;> intro hsig <;>
    simp only [FileValidator.validate_file, FileValidator.validate_file_extension,
      FileValidator.validate_file_size, FileValidator.validate_magic_number,
      hasStepSignature] at hsig ⊢ <;>
    rw [if_pos hext, if_neg (Nat.not_lt.mpr hsize), hio] <;>
    simp [hsig]

/-- Witness for C4: a well-formed STEP upload is accepted with its
lowercased extension and byte count, at concrete inputs. -/
theorem claim_c4_signature_check_witness :
    FileValidator.validate_file ⟨1000⟩ ⟨strBytes "ISO-10303-21; cube", none⟩ "part.STEP"
      = Except.ok (".step", 18) := by
  have h := (claim_c4_signature_check ⟨1000⟩ ⟨strBytes "ISO-10303-21; cube", none⟩
      "part.STEP" rfl (by decide) (by decide)).2 (by decide)
  exact h.trans (congrArg Except.ok (by decide))

/-- C5: a file strictly larger than the configured maximum is rejected
with a `FileSizeExceededError` whose message reports actual and limit in
megabytes with two decimal places, and a file whose length equals the
maximum passes the size check. -/
theorem claim_c5_size_check (v : FileValidator) (fs : FileSys) :
    (v.max_file_size_bytes < fs.content.length →
      FileValidator.validate_file_size v fs =
        Except.error (CADError.fileSizeExceeded
          ("File size " ++ fmt2MB fs.content.length ++
           "MB exceeds maximum allowed size " ++ fmt2MB v.max_file_size_bytes ++ "MB")))
    ∧ (fs.content.length = v.max_file_size_bytes →
      FileValidator.validate_file_size v fs = Except.ok ()) := by
  constructor
  · intro h
    simp only [FileValidator.validate_file_size]
    rw [if_pos h]
  · intro h
    simp only [FileValidator.validate_file_size]
    rw [if_neg (by simp [h])]

/-- Witness for C5: a 60 MB file against a 50 MB cap produces exactly the
message the specification gives as its example. -/
theorem claim_c5_size_check_witness :
    FileValidator.validate_file_size ⟨52428800⟩ ⟨List.replicate 62914560 0, none⟩
      = Except.error (CADError.fileSizeExceeded
          "File size 60.00MB exceeds maximum allowed size 50.00MB") := by
  have h := (claim_c5_size_check ⟨52428800⟩ ⟨List.replicate 62914560 0, none⟩).1
    (by simp only [List.length_replicate]; norm_num)
  rw [h]
  have hc : (⟨List.replicate 62914560 0, none⟩ : FileSys).content
      = List.replicate 62914560 0 := rfl
  rw [hc, List.length_replicate]
  congr 1

/-- C10: an I/O error while opening or reading the file for the signature
check surfaces from `validate_magic_number` (and, when the earlier checks
pass, from `validate_file`) as an `InvalidFileTypeError` whose message
begins with `Cannot read file for validation`, never as a raw I/O error. -/
theorem claim_c10_io_error (fs : FileSys) (em : String)
    (h : fs.ioError = some em) :
    FileValidator.validate_magic_number fs =
      Except.error (CADError.invalidFileType
        ("Cannot read file for validation" ++ (": " ++ em)))
    ∧ ∀ (v : FileValidator) (filename : String),
        lowerStr (pathSuffix filename) ∈ ALLOWED_EXTENSIONS →
        fs.content.length ≤ v.max_file_size_bytes →
        FileValidator.validate_file v fs filename =
          Except.error (CADError.invalidFileType
            ("Cannot read file for validation" ++ (": " ++ em))) := by
  have hm : "Cannot read file for validation: " =
      "Cannot read file for validation" ++ ": " := rfl
  have hmagic : FileValidator.validate_magic_number fs =
      Except.error (CADError.invalidFileType
        ("Cannot read file for validation" ++ (": " ++ em))) := by
    simp only [FileValidator.validate_magic_number, h]
    rw [hm, String.append_assoc]
  refine ⟨hmagic, fun v filename hext hsize => ?_⟩
  simp only [FileValidator.validate_file, FileValidator.validate_file_extension,
    FileValidator.validate_file_size]
  rw [if_pos hext, if_neg (Nat.not_lt.mpr hsize), hmagic]

/-- Witness for C10 at a concrete failing read. -/
theorem claim_c10_io_error_witness :
    FileValidator.validate_file ⟨1000⟩ ⟨[], some "Permission denied"⟩ "part.step"
      = Except.error (CADError.invalidFileType
          ("Cannot read file for validation" ++ (": " ++ "Permission denied"))) :=
  (claim_c10_io_error ⟨[], some "Permission denied"⟩ "Permission denied" rfl).2
    ⟨1000⟩ "part.step" (by decide) (by decide)

/-! ## Theorems about the pipeline stages and orchestration -/

/-- C6: `StepReader.read` raises `StepReadError` exactly when the input
file is missing, the kernel's read status is not done, the resulting shape
is null, or any other exception occurs (wrapped, never propagated raw); in
every other case it returns a non-null shape. -/
theorem claim_c6_step_read (env : ReadEnv) (p : String) :
    (∀ e, StepReader.read env p = Except.error e → ∃ m, e = CADError.stepReadError m)
    ∧ (∀ s, StepReader.read env p = Except.ok s → s.isNull = false)
    ∧ ((∃ e, StepReader.read env p = Except.error e) ↔ env.failCondition)
    ∧ (¬ env.failCondition →
        ∃ s, StepReader.read env p = Except.ok s ∧ s.isNull = false) := by
  refine ⟨fun e h => StepReader.read_error_kind env p e h,
          fun s h => ((StepReader.read_ok_iff env p s).mp h).2.2.2.2.2,
          StepReader.read_error_iff env p, fun hnf => ?_⟩
  rcases hr : StepReader.read env p with e | s
  · exact absurd ((StepReader.read_error_iff env p).mp ⟨e, hr⟩) hnf
  · exact ⟨s, rfl, ((StepReader.read_ok_iff env p s).mp hr).2.2.2.2.2⟩

/-- Witness for C6: a missing input file makes `read` fail, and a
successful run returns the kernel's non-null shape. -/
theorem claim_c6_step_read_witness :
    (∃ e, StepReader.read ⟨false, Except.ok 0, Except.ok .retDone, Except.ok 0,
        Except.ok ⟨1, false⟩⟩ "missing.step" = Except.error e)
    ∧ (⟨5, false⟩ : TopoDS_Shape).isNull = false :=
  ⟨(claim_c6_step_read ⟨false, Except.ok 0, Except.ok .retDone, Except.ok 0,
      Except.ok ⟨1, false⟩⟩ "missing.step").2.2.1.mpr (Or.inl rfl),
   (claim_c6_step_read ⟨true, Except.ok 10, Except.ok .retDone, Except.ok 2,
      Except.ok ⟨5, false⟩⟩ "cube.step").2.1 ⟨5, false⟩ rfl⟩

/-- C7: `ShapeMesher.mesh` raises `MeshingError` exactly when `IsDone` is
false or a kernel call throws (wrapped); on success it returns the same
shape it was given; the kernel mesher is always invoked with absolute
(non-relative) linear deflection. -/
theorem claim_c7_mesh (m : ShapeMesher) (env : MeshEnv) (shape : TopoDS_Shape) :
    (∀ s, ShapeMesher.mesh m env shape = Except.ok s → s = shape)
    ∧ (ShapeMesher.mesh m env shape = Except.ok shape ↔
        (env.ctor = Except.ok () ∧ env.perform = Except.ok () ∧ env.isDone = true))
    ∧ (∀ e, ShapeMesher.mesh m env shape = Except.error e →
        ∃ msg, e = CADError.meshingError msg)
    ∧ ((∃ e, ShapeMesher.mesh m env shape = Except.error e) ↔
        ((∃ em, env.ctor = Except.error em) ∨ (∃ em, env.perform = Except.error em)
         ∨ env.isDone = false))
    ∧ (ShapeMesher.kernelArgs m shape).isRelative = false := by
  refine ⟨fun s h => ((ShapeMesher.mesh_ok_iff m env shape s).mp h).1, ⟨?_, ?_⟩,
          fun e h => ShapeMesher.mesh_error_kind m env shape e h,
          ShapeMesher.mesh_error_iff m env shape, rfl⟩
  · intro h
    exact ((ShapeMesher.mesh_ok_iff m env shape shape).mp h).2
  · intro h
    exact (ShapeMesher.mesh_ok_iff m env shape shape).mpr ⟨rfl, h⟩

/-- Witness for C7: a completed kernel run returns the input shape. -/
theorem claim_c7_mesh_witness :
    ShapeMesher.mesh ⟨1/10, 1/2⟩ ⟨Except.ok (), Except.ok (), true⟩ ⟨3, false⟩
      = Except.ok ⟨3, false⟩ :=
  (claim_c7_mesh ⟨1/10, 1/2⟩ ⟨Except.ok (), Except.ok (), true⟩ ⟨3, false⟩).2.1.mpr
    ⟨rfl, rfl, rfl⟩

/-- C2 counterexample: the writer checks only that the output file exists,
not that it is non-empty, so a kernel write that leaves a zero-length file
on disk is reported as success — refuting the claim that a successful
`write` guarantees an artifact of length > 0. -/
theorem claim_c2_counterexample :
    StlWriter.write ⟨false⟩ ⟨Except.ok (), true, 0⟩ ⟨7, false⟩ "out.stl"
      = Except.ok "out.stl"
    ∧ (⟨Except.ok (), true, 0⟩ : WriteEnv).fileSizeAfter = 0 :=
  ⟨rfl, rfl⟩

/-- C2 (amended): whenever `StlWriter.write` returns successfully, the
output artifact exists on disk (but its length is not checked); `write`
raises `StlWriteError` exactly when the kernel write call throws or the
output file does not exist on disk afterward. -/
theorem claim_c2_stl_write (w : StlWriter) (env : WriteEnv) (shape : TopoDS_Shape)
    (path : String) :
    (∀ r, StlWriter.write w env shape path = Except.ok r →
        r = path ∧ env.fileExistsAfter = true)
    ∧ (StlWriter.write w env shape path = Except.ok path ↔
        (env.writeCall = Except.ok () ∧ env.fileExistsAfter = true))
    ∧ (∀ e, StlWriter.write w env shape path = Except.error e →
        ∃ msg, e = CADError.stlWriteError msg)
    ∧ ((∃ e, StlWriter.write w env shape path = Except.error e) ↔
        ((∃ em, env.writeCall = Except.error em) ∨ env.fileExistsAfter = false)) := by
  refine ⟨fun r h => ?_, ⟨?_, ?_⟩,
          fun e h => StlWriter.write_error_kind w env shape path e h,
          StlWriter.write_error_iff w env shape path⟩
  · obtain ⟨hr, _, hfe⟩ := (StlWriter.write_ok_iff w env shape path r).mp h
    exact ⟨hr, hfe⟩
  · intro h
    exact ((StlWriter.write_ok_iff w env shape path path).mp h).2
  · intro h
    exact (StlWriter.write_ok_iff w env shape path path).mpr ⟨rfl, h⟩

/-- Witness for the amended C2: a clean kernel write with the file present
afterward succeeds with the output path. -/
theorem claim_c2_stl_write_witness :
    StlWriter.write ⟨false⟩ ⟨Except.ok (), true, 84⟩ ⟨9, false⟩ "model.stl"
      = Except.ok "model.stl" :=
  (claim_c2_stl_write ⟨false⟩ ⟨Except.ok (), true, 84⟩ ⟨9, false⟩ "model.stl").2.1.mpr
    ⟨rfl, rfl⟩

/-- C8: configuration loading succeeds exactly when the linear deflection
lies in [0.001, 1.0] and the angular deflection lies in [0.1, 1.0], and
raises a `ValueError` otherwise. -/
theorem claim_c8_config (env : EnvSettings) :
    ((∃ c, AppConfig.from_env env = Except.ok c) ↔
      ((1 / 1000 : ℚ) ≤ env.linear_deflection ∧ env.linear_deflection ≤ 1
       ∧ (1 / 10 : ℚ) ≤ env.angular_deflection ∧ env.angular_deflection ≤ 1))
    ∧ ((∃ msg, AppConfig.from_env env = Except.error msg) ↔
      ¬ ((1 / 1000 : ℚ) ≤ env.linear_deflection ∧ env.linear_deflection ≤ 1
       ∧ (1 / 10 : ℚ) ≤ env.angular_deflection ∧ env.angular_deflection ≤ 1)) := by
  unfold AppConfig.from_env
  split_ifs with h1 h2 <;> constructor <;> simp_all

/-- Witness for C8 at its boundary values: 0.001 and 1.0 (linear) and 0.1
and 1.0 (angular) are accepted; 0.0009 and 1.1 (linear) are rejected. -/
theorem claim_c8_config_witness :
    (∃ c, AppConfig.from_env ⟨5000, "0.0.0.0", "development", "http://localhost:3000",
        50, 10, 1/1000, 1/10, "/tmp/cad-files", "info"⟩ = Except.ok c)
    ∧ (∃ c, AppConfig.from_env ⟨5000, "0.0.0.0", "development", "http://localhost:3000",
        50, 10, 1, 1, "/tmp/cad-files", "info"⟩ = Except.ok c)
    ∧ (∃ msg, AppConfig.from_env ⟨5000, "0.0.0.0", "development", "http://localhost:3000",
        50, 10, 9/10000, 1/2, "/tmp/cad-files", "info"⟩ = Except.error msg)
    ∧ (∃ msg, AppConfig.from_env ⟨5000, "0.0.0.0", "development", "http://localhost:3000",
        50, 10, 11/10, 1/2, "/tmp/cad-files", "info"⟩ = Except.error msg) :=
  ⟨(claim_c8_config _).1.mpr (by norm_num),
   (claim_c8_config _).1.mpr (by norm_num),
   (claim_c8_config _).2.mpr (fun h => absurd h.1 (by norm_num)),
   (claim_c8_config _).2.mpr (fun h => absurd h.2.1 (by norm_num))⟩

/-- C1: for every input, `ConversionService.convert` either returns the
output STL path (all three stages succeeded in that order, the mesh stage
consuming the read stage's shape and the write stage consuming the mesh
stage's shape) or raises `ConversionError`; the stage-specific errors never
escape `convert`, and the failing stage's message is preserved inside the
`ConversionError`'s message. -/
theorem claim_c1_convert (svc : ConversionService) (env : ConvertEnv) (sp op : String) :
    ((∃ r, ConversionService.convert svc env sp op = Except.ok r)
      ∨ (∃ m, ConversionService.convert svc env sp op =
          Except.error (CADError.conversionError m)))
    ∧ (∀ e, ConversionService.convert svc env sp op = Except.error e →
        ∃ m, e = CADError.conversionError m)
    ∧ (∀ r, ConversionService.convert svc env sp op = Except.ok r →
        r = op ∧ ∃ shape, StepReader.read env.readEnv sp = Except.ok shape
          ∧ ShapeMesher.mesh svc.shape_mesher env.meshEnv shape = Except.ok shape
          ∧ StlWriter.write svc.stl_writer env.writeEnv shape op = Except.ok op)
    ∧ (∀ e, StepReader.read env.readEnv sp = Except.error e →
        ConversionService.convert svc env sp op =
          Except.error (CADError.conversionError
            ("Conversion failed: " ++ CADError.message e)))
    ∧ (∀ shape e, StepReader.read env.readEnv sp = Except.ok shape →
        ShapeMesher.mesh svc.shape_mesher env.meshEnv shape = Except.error e →
        ConversionService.convert svc env sp op =
          Except.error (CADError.conversionError
            ("Conversion failed: " ++ CADError.message e)))
    ∧ (∀ shape e, StepReader.read env.readEnv sp = Except.ok shape →
        ShapeMesher.mesh svc.shape_mesher env.meshEnv shape = Except.ok shape →
        StlWriter.write svc.stl_writer env.writeEnv shape op = Except.error e →
        ConversionService.convert svc env sp op =
          Except.error (CADError.conversionError
            ("Conversion failed: " ++ CADError.message e))) := by
  refine ⟨?_, ?_, ?_, ?_, ?_, ?_⟩
  · rcases hr : StepReader.read env.readEnv sp with e | shape
    · obtain ⟨m, rfl⟩ := StepReader.read_error_kind _ _ _ hr
      exact Or.inr ⟨"Conversion failed: " ++ m, by
        simp [ConversionService.convert, ConversionService.convertT, hr,
          ConversionService.wrapError]⟩
    · rcases hm : ShapeMesher.mesh svc.shape_mesher env.meshEnv shape with e | s2
      · obtain ⟨m, rfl⟩ := ShapeMesher.mesh_error_kind _ _ _ _ hm
        exact Or.inr ⟨"Conversion failed: " ++ m, by
          simp [ConversionService.convert, ConversionService.convertT, hr, hm,
            ConversionService.wrapError]⟩
      · rcases hw : StlWriter.write svc.stl_writer env.writeEnv s2 op with e | r
        · obtain ⟨m, rfl⟩ := StlWriter.write_error_kind _ _ _ _ _ hw
          exact Or.inr ⟨"Conversion failed: " ++ m, by
            simp [ConversionService.convert, ConversionService.convertT, hr, hm, hw,
              ConversionService.wrapError]⟩
        · exact Or.inl ⟨r, by
            simp [ConversionService.convert, ConversionService.convertT, hr, hm, hw]⟩
  · intro e h
    rcases hr : StepReader.read env.readEnv sp with e0 | shape
    · obtain ⟨m, rfl⟩ := StepReader.read_error_kind _ _ _ hr
      simp [ConversionService.convert, ConversionService.convertT, hr,
        ConversionService.wrapError] at h
      exact ⟨_, h.symm⟩
    · rcases hm : ShapeMesher.mesh svc.shape_mesher env.meshEnv shape with e0 | s2
      · obtain ⟨m, rfl⟩ := ShapeMesher.mesh_error_kind _ _ _ _ hm
        simp [ConversionService.convert, ConversionService.convertT, hr, hm,
          ConversionService.wrapError] at h
        exact ⟨_, h.symm⟩
      · rcases hw : StlWriter.write svc.stl_writer env.writeEnv s2 op with e0 | r
        · obtain ⟨m, rfl⟩ := StlWriter.write_error_kind _ _ _ _ _ hw
          simp [ConversionService.convert, ConversionService.convertT, hr, hm, hw,
            ConversionService.wrapError] at h
          exact ⟨_, h.symm⟩
        · simp [ConversionService.convert, ConversionService.convertT, hr, hm, hw] at h
  · intro r h
    rcases hr : StepReader.read env.readEnv sp with e0 | shape
    · simp [ConversionService.convert, ConversionService.convertT, hr] at h
    · rcases hm : ShapeMesher.mesh svc.shape_mesher env.meshEnv shape with e0 | s2
      · simp [ConversionService.convert, ConversionService.convertT, hr, hm] at h
      · rcases hw : StlWriter.write svc.stl_writer env.writeEnv s2 op with e0 | r2
        · simp [ConversionService.convert, ConversionService.convertT, hr, hm, hw] at h
        · have hconv : ConversionService.convert svc env sp op = Except.ok r2 := by
            simp [ConversionService.convert, ConversionService.convertT, hr, hm, hw]
          rw [hconv] at h
          have hr2r : r2 = r := Except.ok.inj h
          obtain ⟨hs2, _, _⟩ := (ShapeMesher.mesh_ok_iff _ _ _ _).mp hm
          obtain ⟨hr2op, _, _⟩ := (StlWriter.write_ok_iff _ _ _ _ _).mp hw
          have hmm : svc.shape_mesher.mesh env.meshEnv shape = Except.ok shape := by
            rw [hm, hs2]
          have hww : svc.stl_writer.write env.writeEnv shape op = Except.ok op := by
            rw [← hs2, hw, hr2op]
          exact ⟨hr2r.symm.trans hr2op, shape, rfl, hmm, hww⟩
  · intro e h
    obtain ⟨m, rfl⟩ := StepReader.read_error_kind _ _ _ h
    simp [ConversionService.convert, ConversionService.convertT, h,
      ConversionService.wrapError, CADError.message]
  · intro shape e hr hm
    obtain ⟨m, rfl⟩ := ShapeMesher.mesh_error_kind _ _ _ _ hm
    simp [ConversionService.convert, ConversionService.convertT, hr, hm,
      ConversionService.wrapError, CADError.message]
  · intro shape e hr hm hw
    obtain ⟨m, rfl⟩ := StlWriter.write_error_kind _ _ _ _ _ hw
    simp [ConversionService.convert, ConversionService.convertT, hr, hm, hw,
      ConversionService.wrapError, CADError.message]

/-- Witness for C1: a failing read stage surfaces as a `ConversionError`
whose message embeds the stage error's message. -/
theorem claim_c1_convert_witness :
    ConversionService.convert ⟨⟨⟩, ⟨1/10, 1/2⟩, ⟨false⟩⟩
      ⟨⟨false, Except.ok 0, Except.ok .retDone, Except.ok 0, Except.ok ⟨1, false⟩⟩,
       ⟨Except.ok (), Except.ok (), true⟩, ⟨Except.ok (), true, 5⟩⟩ "in.step" "out.stl"
      = Except.error (CADError.conversionError
          ("Conversion failed: " ++ "STEP file does not exist: in.step")) :=
  (claim_c1_convert ⟨⟨⟩, ⟨1/10, 1/2⟩, ⟨false⟩⟩
      ⟨⟨false, Except.ok 0, Except.ok .retDone, Except.ok 0, Except.ok ⟨1, false⟩⟩,
       ⟨Except.ok (), Except.ok (), true⟩, ⟨Except.ok (), true, 5⟩⟩
      "in.step" "out.stl").2.2.2.1
    (CADError.stepReadError "STEP file does not exist: in.step") rfl

/-- C9: if the read stage fails, the mesh and write stages are never
entered (the run's stage trace is exactly the read stage, and the result
does not depend on the mesh or write environments), so the pipeline
creates no STL artifact; the caller observes the `StepReadError` wrapped
as a `ConversionError`. -/
theorem claim_c9_read_failure (svc : ConversionService) (env : ConvertEnv)
    (sp op : String) (e : CADError)
    (h : StepReader.read env.readEnv sp = Except.error e) :
    (ConversionService.convertT svc env sp op).2 = [StageTag.readStage]
    ∧ StageTag.meshStage ∉ (ConversionService.convertT svc env sp op).2
    ∧ StageTag.writeStage ∉ (ConversionService.convertT svc env sp op).2
    ∧ (∃ m, e = CADError.stepReadError m)
    ∧ ConversionService.convert svc env sp op =
        Except.error (CADError.conversionError
          ("Conversion failed: " ++ CADError.message e))
    ∧ (∀ env' : ConvertEnv, env'.readEnv = env.readEnv →
        ConversionService.convert svc env' sp op =
          ConversionService.convert svc env sp op) := by
  obtain ⟨m, rfl⟩ := StepReader.read_error_kind _ _ _ h
  refine ⟨by simp [ConversionService.convertT, h],
          by simp [ConversionService.convertT, h],
          by simp [ConversionService.convertT, h],
          ⟨m, rfl⟩,
          by simp [ConversionService.convert, ConversionService.convertT, h,
            ConversionService.wrapError, CADError.message],
          fun env' he => ?_⟩
  simp [ConversionService.convert, ConversionService.convertT, he, h]

/-- Witness for C9: with a missing input file the run's stage trace is
exactly the read stage. -/
theorem claim_c9_read_failure_witness :
    (ConversionService.convertT ⟨⟨⟩, ⟨1/10, 1/2⟩, ⟨false⟩⟩
      ⟨⟨false, Except.ok 0, Except.ok .retDone, Except.ok 0, Except.ok ⟨2, false⟩⟩,
       ⟨Except.ok (), Except.ok (), true⟩, ⟨Except.ok (), true, 9⟩⟩
      "part.step" "part.stl").2 = [StageTag.readStage] :=
  (claim_c9_read_failure ⟨⟨⟩, ⟨1/10, 1/2⟩, ⟨false⟩⟩
      ⟨⟨false, Except.ok 0, Except.ok .retDone, Except.ok 0, Except.ok ⟨2, false⟩⟩,
       ⟨Except.ok (), Except.ok (), true⟩, ⟨Except.ok (), true, 9⟩⟩
      "part.step" "part.stl"
      (CADError.stepReadError "STEP file does not exist: part.step") rfl).1

end CadEngine
